import Mathlib

/-!
Verification development for the pyOutlook folder client
(`pyOutlook/core/folders.py`).

The Python module is embedded shallowly:

* JSON values already decoded by the `json` library are modelled by the
  inductive type `Json`; a Python `dict` becomes an association list of
  fields.
* The `Folder` class becomes a structure whose data fields hold `Json`
  values, mirroring Python's dynamic typing: `Folder.__init__` stores
  whatever the JSON lookups produced, without type checks.
* Python exceptions are modelled by `Except PyError`: subscripting a
  missing key raises `KeyError`, subscripting or concatenating a value of
  the wrong type raises `TypeError`, `response.json()` on an unparseable
  body raises a JSON decoding error, and the module's own `AuthError`
  carries its message string.
* Each HTTP method of the class is split at the `requests.<verb>(...)`
  call: a request builder producing the `Request` the method sends, and a
  response handler mapping the `Response` the server returns to the
  method's result.
-/

/-- A decoded JSON value.  Objects are association lists of string keys
(Python dicts coming out of `json.loads` have unique keys). -/
inductive Json where
  | null : Json
  | bool (b : Bool) : Json
  | num (n : Int) : Json
  | str (s : String) : Json
  | arr (items : List Json) : Json
  | obj (fields : List (String × Json)) : Json

/-- The exceptions the embedded code can raise. `AuthError` is defined in
`pyOutlook.internal.errors`, outside the sources at hand; every call site
constructs it from a single message string, and that is how it is modelled.
The other constructors model the runtime errors of the standard library that
the module lets propagate. -/
inductive PyError where
  | authError (msg : String) : PyError
  | keyError (key : String) : PyError
  | typeError : PyError
  | jsonDecodeError : PyError

/-- First binding of a key in an association list (keys are unique in a
decoded JSON object, so first and last bindings agree). -/
def lookupPairs : List (String × Json) → String → Option Json
  | [], _ => none
  | (k, v) :: rest, key => if k = key then some v else lookupPairs rest key

/-- Python subscripting `json_value[key]` with a string key: a `KeyError`
when the dict misses the key, a `TypeError` when the value is not a dict. -/
def getItem (j : Json) (key : String) : Except PyError Json :=
  match j with
  | Json.obj fields =>
    match lookupPairs fields key with
    | some v => Except.ok v
    | none => Except.error (PyError.keyError key)
  | _ => Except.error PyError.typeError

/-- The `OutlookAccount` collaborator: the module only reads its
`access_token` attribute. -/
structure Account where
  access_token : String

/-- The `Folder` class.  The data fields hold the `Json` values the
constructor received; `__init__` performs no conversion. -/
structure Folder where
  account : Account
  id : Json
  name : Json
  parent_id : Json
  child_folder_count : Json
  unread_count : Json
  total_items : Json

/-- `Folder._json_to_folder`: build a `Folder` from a decoded JSON object.
The six subscripts are evaluated left to right, as in the Python call
`Folder(account, json_value['Id'], ..., json_value['TotalItemCount'])`. -/
def Folder._json_to_folder (account : Account) (json_value : Json) : Except PyError Folder :=
  match getItem json_value "Id" with
  | Except.error e => Except.error e
  | Except.ok i =>
    match getItem json_value "DisplayName" with
    | Except.error e => Except.error e
    | Except.ok n =>
      match getItem json_value "ParentFolderId" with
      | Except.error e => Except.error e
      | Except.ok p =>
        match getItem json_value "ChildFolderCount" with
        | Except.error e => Except.error e
        | Except.ok c =>
          match getItem json_value "UnreadItemCount" with
          | Except.error e => Except.error e
          | Except.ok u =>
            match getItem json_value "TotalItemCount" with
            | Except.error e => Except.error e
            | Except.ok t =>
              Except.ok (Folder.mk account i n p c u t)

/-- The list comprehension inside `Folder._json_to_folders`: decode each
element in order, propagating the first failure. -/
def foldersOfList (account : Account) : List Json → Except PyError (List Folder)
  | [] => Except.ok []
  | j :: rest =>
    match Folder._json_to_folder account j with
    | Except.error e => Except.error e
    | Except.ok f =>
      match foldersOfList account rest with
      | Except.error e => Except.error e
      | Except.ok fs => Except.ok (f :: fs)

/-- `Folder._json_to_folders`: decode `json_value['value']` as a list of
folders.  Python iteration over a non-list `'value'` is modelled as a
failure. -/
def Folder._json_to_folders (account : Account) (json_value : Json) : Except PyError (List Folder) :=
  match getItem json_value "value" with
  | Except.error e => Except.error e
  | Except.ok (Json.arr items) => foldersOfList account items
  | Except.ok _ => Except.error PyError.typeError

/-- The `Message` collaborator.  Modelled from the spec: the class lives in
`pyOutlook/core/message.py`, outside the sources at hand; the spec only
requires that it hold the `Json` it was decoded from, tied to an
`Account`. -/
structure Message where
  account : Account
  json : Json

/-- Modelled from the spec: `Message._json_to_messages` is defined in the
missing `pyOutlook/core/message.py`; per the spec it is a factory that
converts a raw JSON array into a sequence of `Message` objects tied to the
same `Account`. -/
def Message._json_to_messages (account : Account) (json_value : Json) : List Message :=
  match json_value with
  | Json.arr items => items.map (fun item => Message.mk account item)
  | _ => []

/-- Python string concatenation `'...' + v`: a `TypeError` unless `v` is a
string. -/
def Json.asStr : Json → Except PyError String
  | Json.str s => Except.ok s
  | _ => Except.error PyError.typeError

/-- An HTTP request as handed to the `requests` library: verb, URL, header
list, and optional body. -/
structure Request where
  method : String
  url : String
  headers : List (String × String)
  body : Option String

/-- An HTTP response as seen through the `requests` API: the status code
and the result of parsing the body as JSON (`none` models a body on which
`response.json()` raises). -/
structure Response where
  status_code : Nat
  jsonBody : Option Json

/-- `response.json()`: the decoded body, or the JSON library's decoding
error. -/
def Response.json (r : Response) : Except PyError Json :=
  match r.jsonBody with
  | some j => Except.ok j
  | none => Except.error PyError.jsonDecodeError

/-- The `Folder.headers` property: rebuilt from the account on each call. -/
def Folder.headers (self : Folder) : List (String × String) :=
  [("Authorization", "Bearer " ++ self.account.access_token),
   ("Content-Type", "application/json")]

/-- `Folder.rename_folder`, request side:
`requests.patch(base + self.id, headers, data = payload)`. -/
def Folder.rename_folder_request (self : Folder) (new_folder_name : String) : Except PyError Request :=
  match self.id.asStr with
  | Except.error e => Except.error e
  | Except.ok i =>
    Except.ok (Request.mk "PATCH"
      ("https://outlook.office.com/api/v2.0/me/MailFolders/" ++ i)
      self.headers
      (some ("\x7b \"DisplayName\": \"" ++ new_folder_name ++ "\"\x7d")))

/-- `Folder.rename_folder`, response side: the band check and the decoding
of the returned folder. -/
def Folder.rename_folder_response (self : Folder) (r : Response) : Except PyError Folder :=
  if 399 < r.status_code ∧ r.status_code < 452 then
    Except.error (PyError.authError
      ("Access Token Error, Received " ++ toString r.status_code ++ " from Outlook REST Endpoint"))
  else
    match r.json with
    | Except.error e => Except.error e
    | Except.ok return_folder => Folder._json_to_folder self.account return_folder

/-- `Folder.get_subfolders`, request side:
`requests.get(base + self.id + '/childfolders', headers)`. -/
def Folder.get_subfolders_request (self : Folder) : Except PyError Request :=
  match self.id.asStr with
  | Except.error e => Except.error e
  | Except.ok i =>
    Except.ok (Request.mk "GET"
      ("https://outlook.office.com/api/v2.0/me/MailFolders/" ++ i ++ "/childfolders")
      self.headers
      none)

/-- `Folder.get_subfolders`, response side. -/
def Folder.get_subfolders_response (self : Folder) (r : Response) : Except PyError (List Folder) :=
  if 399 < r.status_code ∧ r.status_code < 452 then
    Except.error (PyError.authError
      ("Access Token Error, Received " ++ toString r.status_code ++ " from Outlook REST Endpoint"))
  else
    match r.json with
    | Except.error e => Except.error e
    | Except.ok body => Folder._json_to_folders self.account body

/-- `Folder.delete_folder`, request side:
`requests.delete(base + self.id, headers)`. -/
def Folder.delete_folder_request (self : Folder) : Except PyError Request :=
  match self.id.asStr with
  | Except.error e => Except.error e
  | Except.ok i =>
    Except.ok (Request.mk "DELETE"
      ("https://outlook.office.com/api/v2.0/me/MailFolders/" ++ i)
      self.headers
      none)

/-- `Folder.delete_folder`, response side: only the band check; the body is
never decoded and the method returns `None`. -/
def Folder.delete_folder_response (self : Folder) (r : Response) : Except PyError Unit :=
  if 399 < r.status_code ∧ r.status_code < 452 then
    Except.error (PyError.authError
      ("Access Token Error, Received " ++ toString r.status_code ++ " from Outlook REST Endpoint"))
  else
    Except.ok ()

/-- `Folder.move_folder`, request side:
`requests.post(base + self.id + '/move', headers, data = payload)`. -/
def Folder.move_folder_request (self : Folder) (destination_folder : String) : Except PyError Request :=
  match self.id.asStr with
  | Except.error e => Except.error e
  | Except.ok i =>
    Except.ok (Request.mk "POST"
      ("https://outlook.office.com/api/v2.0/me/MailFolders/" ++ i ++ "/move")
      self.headers
      (some ("\x7b \"DestinationId\": \"" ++ destination_folder ++ "\"\x7d")))

/-- `Folder.move_folder`, response side. -/
def Folder.move_folder_response (self : Folder) (r : Response) : Except PyError Folder :=
  if 399 < r.status_code ∧ r.status_code < 452 then
    Except.error (PyError.authError
      ("Access Token Error, Received " ++ toString r.status_code ++ " from Outlook REST Endpoint"))
  else
    match r.json with
    | Except.error e => Except.error e
    | Except.ok return_folder => Folder._json_to_folder self.account return_folder

/-- `Folder.copy_folder`, request side:
`requests.post(base + self.id + '/copy', headers, data = payload)`. -/
def Folder.copy_folder_request (self : Folder) (destination_folder : String) : Except PyError Request :=
  match self.id.asStr with
  | Except.error e => Except.error e
  | Except.ok i =>
    Except.ok (Request.mk "POST"
      ("https://outlook.office.com/api/v2.0/me/MailFolders/" ++ i ++ "/copy")
      self.headers
      (some ("\x7b \"DestinationId\": \"" ++ destination_folder ++ "\"\x7d")))

/-- `Folder.copy_folder`, response side. -/
def Folder.copy_folder_response (self : Folder) (r : Response) : Except PyError Folder :=
  if 399 < r.status_code ∧ r.status_code < 452 then
    Except.error (PyError.authError
      ("Access Token Error, Received " ++ toString r.status_code ++ " from Outlook REST Endpoint"))
  else
    match r.json with
    | Except.error e => Except.error e
    | Except.ok return_folder => Folder._json_to_folder self.account return_folder

/-- `Folder.create_child_folder`, request side:
`requests.post(base + self.id + '/childfolders', headers, data = payload)`. -/
def Folder.create_child_folder_request (self : Folder) (folder_name : String) : Except PyError Request :=
  match self.id.asStr with
  | Except.error e => Except.error e
  | Except.ok i =>
    Except.ok (Request.mk "POST"
      ("https://outlook.office.com/api/v2.0/me/MailFolders/" ++ i ++ "/childfolders")
      self.headers
      (some ("\x7b \"DisplayName\": \"" ++ folder_name ++ "\"\x7d")))

/-- `Folder.create_child_folder`, response side. -/
def Folder.create_child_folder_response (self : Folder) (r : Response) : Except PyError Folder :=
  if 399 < r.status_code ∧ r.status_code < 452 then
    Except.error (PyError.authError
      ("Access Token Error, Received " ++ toString r.status_code ++ " from Outlook REST Endpoint"))
  else
    match r.json with
    | Except.error e => Except.error e
    | Except.ok return_folder => Folder._json_to_folder self.account return_folder

/-- `Folder.messages`, request side:
`requests.get(base + self.id + '/messages', headers)`. -/
def Folder.messages_request (self : Folder) : Except PyError Request :=
  match self.id.asStr with
  | Except.error e => Except.error e
  | Except.ok i =>
    Except.ok (Request.mk "GET"
      ("https://outlook.office.com/api/v2.0/me/MailFolders/" ++ i ++ "/messages")
      self.headers
      none)

/-- `Folder.messages`, response side: only status 401 raises, with a
hard-coded message; every other status decodes the body as messages. -/
def Folder.messages_response (self : Folder) (r : Response) : Except PyError (List Message) :=
  if r.status_code = 401 then
    Except.error (PyError.authError "Access Token Error, Received 401 from Outlook REST Endpoint")
  else
    match r.json with
    | Except.error e => Except.error e
    | Except.ok body => Except.ok (Message._json_to_messages self.account body)

/-- State-passing form of `Folder.rename_folder`: the method body contains
no assignment to `self`, so the post-state is the receiver itself. -/
def Folder.rename_folder_step (self : Folder) (new_folder_name : String) (r : Response) :
    Folder × Except PyError Folder :=
  (self, self.rename_folder_response r)

/-- State-passing form of `Folder.move_folder`. -/
def Folder.move_folder_step (self : Folder) (destination_folder : String) (r : Response) :
    Folder × Except PyError Folder :=
  (self, self.move_folder_response r)

/-- State-passing form of `Folder.copy_folder`. -/
def Folder.copy_folder_step (self : Folder) (destination_folder : String) (r : Response) :
    Folder × Except PyError Folder :=
  (self, self.copy_folder_response r)

/-- State-passing form of `Folder.create_child_folder`. -/
def Folder.create_child_folder_step (self : Folder) (folder_name : String) (r : Response) :
    Folder × Except PyError Folder :=
  (self, self.create_child_folder_response r)

/-!
A recognizer for the JSON grammar (RFC 8259), used to state that a payload
built by naive interpolation need not be well-formed JSON.  The recognizer
consumes characters from a list and returns the unconsumed suffix, or
`none` on a syntax error; recursion is bounded by explicit fuel.  The
number production is slightly permissive (leading zeros are accepted),
which does not matter here: the payloads at issue fail on string syntax.
-/

/-- The opening curly brace character. -/
def lcurly : Char := Char.ofNat 123

/-- The closing curly brace character. -/
def rcurly : Char := Char.ofNat 125

/-- JSON insignificant whitespace. -/
def isJsonWs (c : Char) : Bool :=
  c = ' ' || c = '\t' || c = '\n' || c = '\r'

/-- Drop leading whitespace. -/
def skipWs : List Char → List Char
  | [] => []
  | c :: cs => if isJsonWs c then skipWs cs else c :: cs

/-- A hexadecimal digit. -/
def isHexDigit (c : Char) : Bool :=
  c.isDigit || ('a' ≤ c && c ≤ 'f') || ('A' ≤ c && c ≤ 'F')

/-- Consume any further decimal digits. -/
def skipDigits : List Char → List Char
  | [] => []
  | c :: cs => if c.isDigit then skipDigits cs else c :: cs

/-- Consume one or more decimal digits. -/
def parseDigits : List Char → Option (List Char)
  | [] => none
  | c :: cs => if c.isDigit then some (skipDigits cs) else none

/-- Consume the rest of a JSON string literal, the opening quote already
consumed: ordinary characters above `U+001F`, two-character escapes, and
`u`-escapes with four hex digits, up to the closing quote. -/
def parseStringRest (fuel : Nat) (cs : List Char) : Option (List Char) :=
  match fuel, cs with
  | 0, _ => none
  | _, [] => none
  | Nat.succ f, c :: rest =>
    if c = '"' then some rest
    else if c = '\\' then
      match rest with
      | [] => none
      | e :: rest2 =>
        if e = '"' || e = '\\' || e = '/' || e = 'b' || e = 'f' ||
            e = 'n' || e = 'r' || e = 't' then
          parseStringRest f rest2
        else if e = 'u' then
          match rest2 with
          | h1 :: h2 :: h3 :: h4 :: rest3 =>
            if isHexDigit h1 && isHexDigit h2 && isHexDigit h3 && isHexDigit h4 then
              parseStringRest f rest3
            else none
          | _ => none
        else none
    else if c.toNat < 32 then none
    else parseStringRest f rest

/-- Consume a JSON number: optional minus, digits, optional fraction,
optional exponent. -/
def parseNumber (cs : List Char) : Option (List Char) :=
  let cs1 := match cs with
    | '-' :: r => r
    | _ => cs
  match parseDigits cs1 with
  | none => none
  | some cs2 =>
    let frac : Option (List Char) := match cs2 with
      | '.' :: r => parseDigits r
      | _ => some cs2
    match frac with
    | none => none
    | some cs3 =>
      match cs3 with
      | c :: r =>
        if c = 'e' || c = 'E' then
          let r2 := match r with
            | '+' :: r3 => r3
            | '-' :: r3 => r3
            | _ => r
          parseDigits r2
        else some cs3
      | [] => some cs3

mutual

/-- Consume one JSON value. -/
def parseVal (fuel : Nat) (cs : List Char) : Option (List Char) :=
  match fuel with
  | 0 => none
  | Nat.succ f =>
    match cs with
    | 'n' :: 'u' :: 'l' :: 'l' :: rest => some rest
    | 't' :: 'r' :: 'u' :: 'e' :: rest => some rest
    | 'f' :: 'a' :: 'l' :: 's' :: 'e' :: rest => some rest
    | '"' :: rest => parseStringRest f rest
    | '[' :: rest =>
      (match skipWs rest with
       | ']' :: r => some r
       | cs2 => parseArrElems f cs2)
    | c :: rest =>
      if c = lcurly then
        match skipWs rest with
        | r :: r2 => if r = rcurly then some r2 else parseObjMembers f (r :: r2)
        | [] => none
      else parseNumber cs
    | [] => none

/-- Consume the comma-separated elements of an array and its closing
bracket, the opening bracket and leading whitespace already consumed. -/
def parseArrElems (fuel : Nat) (cs : List Char) : Option (List Char) :=
  match fuel with
  | 0 => none
  | Nat.succ f =>
    match parseVal f cs with
    | none => none
    | some cs2 =>
      match skipWs cs2 with
      | ',' :: r => parseArrElems f (skipWs r)
      | ']' :: r => some r
      | _ => none

/-- Consume the comma-separated members of an object and its closing brace,
the opening brace and leading whitespace already consumed. -/
def parseObjMembers (fuel : Nat) (cs : List Char) : Option (List Char) :=
  match fuel with
  | 0 => none
  | Nat.succ f =>
    match cs with
    | '"' :: r =>
      (match parseStringRest f r with
       | none => none
       | some r2 =>
         match skipWs r2 with
         | ':' :: r3 =>
           (match parseVal f (skipWs r3) with
            | none => none
            | some r4 =>
              match skipWs r4 with
              | ',' :: r5 => parseObjMembers f (skipWs r5)
              | c :: r5 => if c = rcurly then some r5 else none
              | [] => none)
         | _ => none)
    | _ => none

end

/-- A string is well-formed JSON when one value, surrounded by optional
whitespace, consumes it entirely. -/
def jsonValid (s : String) : Bool :=
  match parseVal (2 * s.length + 8) (skipWs s.data) with
  | some rest => (skipWs rest).isEmpty
  | none => false

/-- A concrete account used to instantiate universally quantified
statements. -/
def sampleAccount : Account := Account.mk "token123"

/-- A concrete folder with a string id, as decoding always produces for
well-formed server responses. -/
def sampleFolder : Folder :=
  Folder.mk sampleAccount (Json.str "AAA") (Json.str "Inbox") (Json.str "root")
    (Json.num 1) (Json.num 2) (Json.num 3)

/-- A concrete well-formed folder JSON object. -/
def sampleFolderJson : Json :=
  Json.obj [("Id", Json.str "BBB"), ("DisplayName", Json.str "Archive"),
            ("ParentFolderId", Json.str "root"), ("ChildFolderCount", Json.num 0),
            ("UnreadItemCount", Json.num 4), ("TotalItemCount", Json.num 9)]

/-- The folder `sampleFolderJson` decodes to, under `sampleAccount`. -/
def sampleDecoded : Folder :=
  Folder.mk sampleAccount (Json.str "BBB") (Json.str "Archive") (Json.str "root")
    (Json.num 0) (Json.num 4) (Json.num 9)

/-- Sanity check: a payload whose interpolated name needs no escaping is
well-formed JSON. -/
theorem jsonValid_plain_payload :
    jsonValid ("\x7b \"DisplayName\": \"" ++ "Archive" ++ "\"\x7d") = true := by
  decide

/-- C1: for every status code between 400 and 451, `rename_folder`,
`get_subfolders`, `delete_folder`, `move_folder`, `copy_folder` and
`create_child_folder` all raise `AuthError` with the message that carries
that status code, whatever the response body holds — in particular the
body is never JSON-decoded (the result is the same even for a body that
cannot be decoded). -/
theorem folder_ops_error_band (s : Nat) (h1 : 400 ≤ s) (h2 : s ≤ 451)
    (self : Folder) (body : Option Json) :
    self.rename_folder_response (Response.mk s body) =
      Except.error (PyError.authError
        ("Access Token Error, Received " ++ toString s ++ " from Outlook REST Endpoint")) ∧
    self.get_subfolders_response (Response.mk s body) =
      Except.error (PyError.authError
        ("Access Token Error, Received " ++ toString s ++ " from Outlook REST Endpoint")) ∧
    self.delete_folder_response (Response.mk s body) =
      Except.error (PyError.authError
        ("Access Token Error, Received " ++ toString s ++ " from Outlook REST Endpoint")) ∧
    self.move_folder_response (Response.mk s body) =
      Except.error (PyError.authError
        ("Access Token Error, Received " ++ toString s ++ " from Outlook REST Endpoint")) ∧
    self.copy_folder_response (Response.mk s body) =
      Except.error (PyError.authError
        ("Access Token Error, Received " ++ toString s ++ " from Outlook REST Endpoint")) ∧
    self.create_child_folder_response (Response.mk s body) =
      Except.error (PyError.authError
        ("Access Token Error, Received " ++ toString s ++ " from Outlook REST Endpoint")) := by
  have h399 : 399 < s := by omega
  have h452 : s < 452 := by omega
  refine ⟨?_, ?_, ?_, ?_, ?_, ?_⟩ <;>
    simp [Folder.rename_folder_response, Folder.get_subfolders_response,
      Folder.delete_folder_response, Folder.move_folder_response,
      Folder.copy_folder_response, Folder.create_child_folder_response,
      h399, h452]

/-- C1 witness: the band theorem applied at status 404 with an undecodable
body. -/
theorem folder_ops_error_band_witness :
    400 ≤ 404 ∧ 404 ≤ 451 ∧
    (sampleFolder.rename_folder_response (Response.mk 404 none) =
      Except.error (PyError.authError
        ("Access Token Error, Received " ++ toString 404 ++ " from Outlook REST Endpoint")) ∧
    sampleFolder.get_subfolders_response (Response.mk 404 none) =
      Except.error (PyError.authError
        ("Access Token Error, Received " ++ toString 404 ++ " from Outlook REST Endpoint")) ∧
    sampleFolder.delete_folder_response (Response.mk 404 none) =
      Except.error (PyError.authError
        ("Access Token Error, Received " ++ toString 404 ++ " from Outlook REST Endpoint")) ∧
    sampleFolder.move_folder_response (Response.mk 404 none) =
      Except.error (PyError.authError
        ("Access Token Error, Received " ++ toString 404 ++ " from Outlook REST Endpoint")) ∧
    sampleFolder.copy_folder_response (Response.mk 404 none) =
      Except.error (PyError.authError
        ("Access Token Error, Received " ++ toString 404 ++ " from Outlook REST Endpoint")) ∧
    sampleFolder.create_child_folder_response (Response.mk 404 none) =
      Except.error (PyError.authError
        ("Access Token Error, Received " ++ toString 404 ++ " from Outlook REST Endpoint"))) :=
  ⟨by decide, by decide, folder_ops_error_band 404 (by decide) (by decide) sampleFolder none⟩

/-- C2: for `messages`, status 401 raises `AuthError`; any other status in
the 400–451 band raises no `AuthError`: the body is decoded as messages
instead. -/
theorem messages_only_401_raises (self : Folder) (body : Option Json)
    (s : Nat) (h1 : 400 ≤ s) (h2 : s ≤ 451) (hne : s ≠ 401) (j : Json) :
    self.messages_response (Response.mk 401 body) =
      Except.error (PyError.authError
        "Access Token Error, Received 401 from Outlook REST Endpoint") ∧
    (∀ m, self.messages_response (Response.mk s body) ≠
      Except.error (PyError.authError m)) ∧
    self.messages_response (Response.mk s (some j)) =
      Except.ok (Message._json_to_messages self.account j) := by
  refine ⟨?_, ?_, ?_⟩
  · simp [Folder.messages_response]
  · intro m
    cases body with
    | none => simp [Folder.messages_response, hne, Response.json]
    | some b => simp [Folder.messages_response, hne, Response.json]
  · simp [Folder.messages_response, hne, Response.json]

/-- C2 witness: status 400 is in the band, differs from 401, and the
theorem applies at a concrete folder and body. -/
theorem messages_only_401_raises_witness :
    400 ≤ 400 ∧ 400 ≤ 451 ∧ 400 ≠ 401 ∧
    (sampleFolder.messages_response (Response.mk 401 none) =
      Except.error (PyError.authError
        "Access Token Error, Received 401 from Outlook REST Endpoint") ∧
    (∀ m, sampleFolder.messages_response (Response.mk 400 none) ≠
      Except.error (PyError.authError m)) ∧
    sampleFolder.messages_response (Response.mk 400 (some (Json.arr []))) =
      Except.ok (Message._json_to_messages sampleFolder.account (Json.arr []))) :=
  ⟨by decide, by decide, by decide,
    messages_only_401_raises sampleFolder none 400 (by decide) (by decide) (by decide)
      (Json.arr [])⟩

/-- C3: decoding a JSON object that binds the six expected keys is
lossless: the resulting folder holds exactly the bound values, field by
field, together with the given account. -/
theorem json_to_folder_lossless (account : Account) (j : Json)
    (i n p c u t : Json)
    (hI : getItem j "Id" = Except.ok i)
    (hD : getItem j "DisplayName" = Except.ok n)
    (hP : getItem j "ParentFolderId" = Except.ok p)
    (hC : getItem j "ChildFolderCount" = Except.ok c)
    (hU : getItem j "UnreadItemCount" = Except.ok u)
    (hT : getItem j "TotalItemCount" = Except.ok t) :
    Folder._json_to_folder account j = Except.ok (Folder.mk account i n p c u t) := by
  simp [Folder._json_to_folder, hI, hD, hP, hC, hU, hT]

/-- C3 witness: the lossless decoding theorem applied to a concrete
six-field object. -/
theorem json_to_folder_lossless_witness :
    getItem sampleFolderJson "Id" = Except.ok (Json.str "BBB") ∧
    getItem sampleFolderJson "DisplayName" = Except.ok (Json.str "Archive") ∧
    getItem sampleFolderJson "ParentFolderId" = Except.ok (Json.str "root") ∧
    getItem sampleFolderJson "ChildFolderCount" = Except.ok (Json.num 0) ∧
    getItem sampleFolderJson "UnreadItemCount" = Except.ok (Json.num 4) ∧
    getItem sampleFolderJson "TotalItemCount" = Except.ok (Json.num 9) ∧
    Folder._json_to_folder sampleAccount sampleFolderJson =
      Except.ok (Folder.mk sampleAccount (Json.str "BBB") (Json.str "Archive")
        (Json.str "root") (Json.num 0) (Json.num 4) (Json.num 9)) :=
  ⟨rfl, rfl, rfl, rfl, rfl, rfl,
    json_to_folder_lossless sampleAccount sampleFolderJson _ _ _ _ _ _
      rfl rfl rfl rfl rfl rfl⟩

/-- C4: any status outside the 400–451 band — 399 and 452 on the
boundaries, 500 and all other server errors included — is treated as
success: each operation decodes its body as JSON and returns the mapped
objects (a folder, a list of folders, or a list of messages).  For
`messages` the same holds for every status other than 401, which a status
outside the band always is. -/
theorem success_status_decodes (s : Nat) (hs : s ≤ 399 ∨ 452 ≤ s)
    (self : Folder) (j1 j2 j3 : Json) (f : Folder) (fs : List Folder)
    (hf : Folder._json_to_folder self.account j1 = Except.ok f)
    (hfs : Folder._json_to_folders self.account j2 = Except.ok fs) :
    self.rename_folder_response (Response.mk s (some j1)) = Except.ok f ∧
    self.move_folder_response (Response.mk s (some j1)) = Except.ok f ∧
    self.copy_folder_response (Response.mk s (some j1)) = Except.ok f ∧
    self.create_child_folder_response (Response.mk s (some j1)) = Except.ok f ∧
    self.get_subfolders_response (Response.mk s (some j2)) = Except.ok fs ∧
    self.messages_response (Response.mk s (some j3)) =
      Except.ok (Message._json_to_messages self.account j3) ∧
    self.delete_folder_response (Response.mk s (some j1)) = Except.ok () := by
  have hnband : ¬(399 < s ∧ s < 452) := by omega
  have hne : s ≠ 401 := by omega
  refine ⟨?_, ?_, ?_, ?_, ?_, ?_, ?_⟩ <;>
    simp [Folder.rename_folder_response, Folder.move_folder_response,
      Folder.copy_folder_response, Folder.create_child_folder_response,
      Folder.get_subfolders_response, Folder.messages_response,
      Folder.delete_folder_response, Response.json, hnband, hne, hf, hfs]

/-- C4 witness: the success theorem applied at the boundary statuses 399
and 452 and at the server error 500, on concrete decodable bodies. -/
theorem success_status_decodes_witness :
    ((399 : Nat) ≤ 399 ∨ (452 : Nat) ≤ 399) ∧
    ((452 : Nat) ≤ 399 ∨ (452 : Nat) ≤ 452) ∧
    ((500 : Nat) ≤ 399 ∨ (452 : Nat) ≤ 500) ∧
    Folder._json_to_folder sampleFolder.account sampleFolderJson = Except.ok sampleDecoded ∧
    Folder._json_to_folders sampleFolder.account
      (Json.obj [("value", Json.arr [sampleFolderJson])]) = Except.ok [sampleDecoded] ∧
    (sampleFolder.rename_folder_response (Response.mk 399 (some sampleFolderJson)) =
      Except.ok sampleDecoded ∧
    sampleFolder.move_folder_response (Response.mk 399 (some sampleFolderJson)) =
      Except.ok sampleDecoded ∧
    sampleFolder.copy_folder_response (Response.mk 399 (some sampleFolderJson)) =
      Except.ok sampleDecoded ∧
    sampleFolder.create_child_folder_response (Response.mk 399 (some sampleFolderJson)) =
      Except.ok sampleDecoded ∧
    sampleFolder.get_subfolders_response
      (Response.mk 399 (some (Json.obj [("value", Json.arr [sampleFolderJson])]))) =
      Except.ok [sampleDecoded] ∧
    sampleFolder.messages_response (Response.mk 399 (some (Json.arr []))) =
      Except.ok (Message._json_to_messages sampleFolder.account (Json.arr [])) ∧
    sampleFolder.delete_folder_response (Response.mk 399 (some sampleFolderJson)) =
      Except.ok ()) ∧
    (sampleFolder.rename_folder_response (Response.mk 452 (some sampleFolderJson)) =
      Except.ok sampleDecoded ∧
    sampleFolder.move_folder_response (Response.mk 452 (some sampleFolderJson)) =
      Except.ok sampleDecoded ∧
    sampleFolder.copy_folder_response (Response.mk 452 (some sampleFolderJson)) =
      Except.ok sampleDecoded ∧
    sampleFolder.create_child_folder_response (Response.mk 452 (some sampleFolderJson)) =
      Except.ok sampleDecoded ∧
    sampleFolder.get_subfolders_response
      (Response.mk 452 (some (Json.obj [("value", Json.arr [sampleFolderJson])]))) =
      Except.ok [sampleDecoded] ∧
    sampleFolder.messages_response (Response.mk 452 (some (Json.arr []))) =
      Except.ok (Message._json_to_messages sampleFolder.account (Json.arr [])) ∧
    sampleFolder.delete_folder_response (Response.mk 452 (some sampleFolderJson)) =
      Except.ok ()) ∧
    (sampleFolder.rename_folder_response (Response.mk 500 (some sampleFolderJson)) =
      Except.ok sampleDecoded ∧
    sampleFolder.move_folder_response (Response.mk 500 (some sampleFolderJson)) =
      Except.ok sampleDecoded ∧
    sampleFolder.copy_folder_response (Response.mk 500 (some sampleFolderJson)) =
      Except.ok sampleDecoded ∧
    sampleFolder.create_child_folder_response (Response.mk 500 (some sampleFolderJson)) =
      Except.ok sampleDecoded ∧
    sampleFolder.get_subfolders_response
      (Response.mk 500 (some (Json.obj [("value", Json.arr [sampleFolderJson])]))) =
      Except.ok [sampleDecoded] ∧
    sampleFolder.messages_response (Response.mk 500 (some (Json.arr []))) =
      Except.ok (Message._json_to_messages sampleFolder.account (Json.arr [])) ∧
    sampleFolder.delete_folder_response (Response.mk 500 (some sampleFolderJson)) =
      Except.ok ()) :=
  ⟨Or.inl (by decide), Or.inr (by decide), Or.inr (by decide), rfl, rfl,
    success_status_decodes 399 (Or.inl (by decide)) sampleFolder sampleFolderJson
      (Json.obj [("value", Json.arr [sampleFolderJson])]) (Json.arr [])
      sampleDecoded [sampleDecoded] rfl rfl,
    success_status_decodes 452 (Or.inr (by decide)) sampleFolder sampleFolderJson
      (Json.obj [("value", Json.arr [sampleFolderJson])]) (Json.arr [])
      sampleDecoded [sampleDecoded] rfl rfl,
    success_status_decodes 500 (Or.inr (by decide)) sampleFolder sampleFolderJson
      (Json.obj [("value", Json.arr [sampleFolderJson])]) (Json.arr [])
      sampleDecoded [sampleDecoded] rfl rfl⟩

/-- When the element-wise decoding of a list succeeds, it yields one folder
per element, in order, each by the single-folder decoding rule. -/
theorem foldersOfList_length_get (account : Account) :
    ∀ (js : List Json) (folders : List Folder),
      foldersOfList account js = Except.ok folders →
      folders.length = js.length ∧
      ∀ (k : Nat) (hk : k < js.length) (hk2 : k < folders.length),
        Folder._json_to_folder account (js.get ⟨k, hk⟩) =
          Except.ok (folders.get ⟨k, hk2⟩) := by
  intro js
  induction js with
  | nil =>
    intro folders h
    simp only [foldersOfList] at h
    cases h
    exact ⟨rfl, fun k hk => absurd hk (Nat.not_lt_zero k)⟩
  | cons j rest ih =>
    intro folders h
    simp only [foldersOfList] at h
    cases hj : Folder._json_to_folder account j with
    | error e => rw [hj] at h; cases h
    | ok f =>
      rw [hj] at h
      cases hr : foldersOfList account rest with
      | error e => rw [hr] at h; cases h
      | ok fs =>
        rw [hr] at h
        cases h
        obtain ⟨hlen, hget⟩ := ih fs hr
        refine ⟨by simp [hlen], ?_⟩
        intro k hk hk2
        cases k with
        | zero => simpa using hj
        | succ m =>
          have hm : m < rest.length := by simpa using hk
          have hm2 : m < fs.length := by simpa using hk2
          simpa using hget m hm hm2

/-- C5: decoding a folder list from a payload whose `value` key binds an
array of decodable folder objects yields exactly one folder per array
element, in the order of the array, each produced by the single-folder
decoding rule. -/
theorem json_to_folders_ordered (account : Account) (j : Json)
    (js : List Json) (folders : List Folder)
    (hv : getItem j "value" = Except.ok (Json.arr js))
    (hd : foldersOfList account js = Except.ok folders) :
    Folder._json_to_folders account j = Except.ok folders ∧
    folders.length = js.length ∧
    ∀ (k : Nat) (hk : k < js.length) (hk2 : k < folders.length),
      Folder._json_to_folder account (js.get ⟨k, hk⟩) =
        Except.ok (folders.get ⟨k, hk2⟩) := by
  obtain ⟨hlen, hget⟩ := foldersOfList_length_get account js folders hd
  exact ⟨by simp [Folder._json_to_folders, hv, hd], hlen, hget⟩

/-- C5 witness: a two-element `value` array decodes to two folders in
order. -/
theorem json_to_folders_ordered_witness :
    getItem (Json.obj [("value", Json.arr [sampleFolderJson, sampleFolderJson])]) "value" =
      Except.ok (Json.arr [sampleFolderJson, sampleFolderJson]) ∧
    foldersOfList sampleAccount [sampleFolderJson, sampleFolderJson] =
      Except.ok [sampleDecoded, sampleDecoded] ∧
    (Folder._json_to_folders sampleAccount
        (Json.obj [("value", Json.arr [sampleFolderJson, sampleFolderJson])]) =
      Except.ok [sampleDecoded, sampleDecoded] ∧
    ([sampleDecoded, sampleDecoded] : List Folder).length =
      ([sampleFolderJson, sampleFolderJson] : List Json).length ∧
    ∀ (k : Nat) (hk : k < ([sampleFolderJson, sampleFolderJson] : List Json).length)
      (hk2 : k < ([sampleDecoded, sampleDecoded] : List Folder).length),
      Folder._json_to_folder sampleAccount
          (([sampleFolderJson, sampleFolderJson] : List Json).get ⟨k, hk⟩) =
        Except.ok (([sampleDecoded, sampleDecoded] : List Folder).get ⟨k, hk2⟩)) :=
  ⟨rfl, rfl,
    json_to_folders_ordered sampleAccount
      (Json.obj [("value", Json.arr [sampleFolderJson, sampleFolderJson])])
      [sampleFolderJson, sampleFolderJson] [sampleDecoded, sampleDecoded] rfl rfl⟩

/-- C6: each mutating operation leaves the receiver folder — all of its
fields — unchanged, and whenever it returns a folder, that folder is a
fresh one constructed from the server's JSON response body by the decoding
rule. -/
theorem mutating_ops_fresh_result (self : Folder) (name dest : String) (r : Response) :
    (self.rename_folder_step name r).fst = self ∧
    (self.move_folder_step dest r).fst = self ∧
    (self.copy_folder_step dest r).fst = self ∧
    (self.create_child_folder_step name r).fst = self ∧
    (∀ f, (self.rename_folder_step name r).snd = Except.ok f →
      ∃ j, r.jsonBody = some j ∧ Folder._json_to_folder self.account j = Except.ok f) ∧
    (∀ f, (self.move_folder_step dest r).snd = Except.ok f →
      ∃ j, r.jsonBody = some j ∧ Folder._json_to_folder self.account j = Except.ok f) ∧
    (∀ f, (self.copy_folder_step dest r).snd = Except.ok f →
      ∃ j, r.jsonBody = some j ∧ Folder._json_to_folder self.account j = Except.ok f) ∧
    (∀ f, (self.create_child_folder_step name r).snd = Except.ok f →
      ∃ j, r.jsonBody = some j ∧ Folder._json_to_folder self.account j = Except.ok f) := by
  refine ⟨rfl, rfl, rfl, rfl, ?_, ?_, ?_, ?_⟩ <;>
  · intro f h
    simp only [Folder.rename_folder_step, Folder.move_folder_step,
      Folder.copy_folder_step, Folder.create_child_folder_step,
      Folder.rename_folder_response, Folder.move_folder_response,
      Folder.copy_folder_response, Folder.create_child_folder_response] at h
    by_cases hband : 399 < r.status_code ∧ r.status_code < 452
    · rw [if_pos hband] at h; cases h
    · rw [if_neg hband] at h
      cases hb : r.jsonBody with
      | none => rw [Response.json, hb] at h; cases h
      | some j =>
        rw [Response.json, hb] at h
        exact ⟨j, rfl, h⟩

/-- C6 witness: the frame theorem at a concrete folder, arguments and
successful response. -/
theorem mutating_ops_fresh_result_witness :
    (sampleFolder.rename_folder_step "Archive" (Response.mk 200 (some sampleFolderJson))).fst =
      sampleFolder ∧
    (sampleFolder.move_folder_step "DDD" (Response.mk 200 (some sampleFolderJson))).fst =
      sampleFolder ∧
    (sampleFolder.copy_folder_step "DDD" (Response.mk 200 (some sampleFolderJson))).fst =
      sampleFolder ∧
    (sampleFolder.create_child_folder_step "Archive"
      (Response.mk 200 (some sampleFolderJson))).fst = sampleFolder ∧
    (∀ f, (sampleFolder.rename_folder_step "Archive"
        (Response.mk 200 (some sampleFolderJson))).snd = Except.ok f →
      ∃ j, (Response.mk 200 (some sampleFolderJson)).jsonBody = some j ∧
        Folder._json_to_folder sampleFolder.account j = Except.ok f) ∧
    (∀ f, (sampleFolder.move_folder_step "DDD"
        (Response.mk 200 (some sampleFolderJson))).snd = Except.ok f →
      ∃ j, (Response.mk 200 (some sampleFolderJson)).jsonBody = some j ∧
        Folder._json_to_folder sampleFolder.account j = Except.ok f) ∧
    (∀ f, (sampleFolder.copy_folder_step "DDD"
        (Response.mk 200 (some sampleFolderJson))).snd = Except.ok f →
      ∃ j, (Response.mk 200 (some sampleFolderJson)).jsonBody = some j ∧
        Folder._json_to_folder sampleFolder.account j = Except.ok f) ∧
    (∀ f, (sampleFolder.create_child_folder_step "Archive"
        (Response.mk 200 (some sampleFolderJson))).snd = Except.ok f →
      ∃ j, (Response.mk 200 (some sampleFolderJson)).jsonBody = some j ∧
        Folder._json_to_folder sampleFolder.account j = Except.ok f) :=
  mutating_ops_fresh_result sampleFolder "Archive" "DDD"
    (Response.mk 200 (some sampleFolderJson))

/-- C7: the request bodies are built by exact string interpolation with no
escaping — `rename_folder` and `create_child_folder` send precisely the
`DisplayName` template around the caller's string, `move_folder` and
`copy_folder` precisely the `DestinationId` template — and consequently an
argument containing a quote character yields a body that is not well-formed
JSON. -/
theorem payload_naive_interpolation (self : Folder) (i : String)
    (hid : self.id = Json.str i) (name dest : String) :
    (self.rename_folder_request name).map Request.body =
      Except.ok (some ("\x7b \"DisplayName\": \"" ++ name ++ "\"\x7d")) ∧
    (self.create_child_folder_request name).map Request.body =
      Except.ok (some ("\x7b \"DisplayName\": \"" ++ name ++ "\"\x7d")) ∧
    (self.move_folder_request dest).map Request.body =
      Except.ok (some ("\x7b \"DestinationId\": \"" ++ dest ++ "\"\x7d")) ∧
    (self.copy_folder_request dest).map Request.body =
      Except.ok (some ("\x7b \"DestinationId\": \"" ++ dest ++ "\"\x7d")) ∧
    jsonValid ("\x7b \"DisplayName\": \"" ++ "a\"b" ++ "\"\x7d") = false := by
  refine ⟨?_, ?_, ?_, ?_, by decide⟩ <;>
    simp [Folder.rename_folder_request, Folder.create_child_folder_request,
      Folder.move_folder_request, Folder.copy_folder_request, hid, Json.asStr,
      Except.map]

/-- C7 witness: the interpolation theorem at a concrete folder and
arguments. -/
theorem payload_naive_interpolation_witness :
    sampleFolder.id = Json.str "AAA" ∧
    ((sampleFolder.rename_folder_request "New Name").map Request.body =
      Except.ok (some ("\x7b \"DisplayName\": \"" ++ "New Name" ++ "\"\x7d")) ∧
    (sampleFolder.create_child_folder_request "New Name").map Request.body =
      Except.ok (some ("\x7b \"DisplayName\": \"" ++ "New Name" ++ "\"\x7d")) ∧
    (sampleFolder.move_folder_request "DDD").map Request.body =
      Except.ok (some ("\x7b \"DestinationId\": \"" ++ "DDD" ++ "\"\x7d")) ∧
    (sampleFolder.copy_folder_request "DDD").map Request.body =
      Except.ok (some ("\x7b \"DestinationId\": \"" ++ "DDD" ++ "\"\x7d")) ∧
    jsonValid ("\x7b \"DisplayName\": \"" ++ "a\"b" ++ "\"\x7d") = false) :=
  ⟨rfl, payload_naive_interpolation sampleFolder "AAA" rfl "New Name" "DDD"⟩

/-- C8: every request of every operation carries exactly the two headers
`Authorization: Bearer <token>` and `Content-Type: application/json`,
rebuilt from the current account each time. -/
theorem requests_carry_exact_headers (self : Folder) (i : String)
    (hid : self.id = Json.str i) (name dest : String) :
    (self.rename_folder_request name).map Request.headers = Except.ok self.headers ∧
    (self.get_subfolders_request).map Request.headers = Except.ok self.headers ∧
    (self.delete_folder_request).map Request.headers = Except.ok self.headers ∧
    (self.move_folder_request dest).map Request.headers = Except.ok self.headers ∧
    (self.copy_folder_request dest).map Request.headers = Except.ok self.headers ∧
    (self.create_child_folder_request name).map Request.headers = Except.ok self.headers ∧
    (self.messages_request).map Request.headers = Except.ok self.headers ∧
    self.headers = [("Authorization", "Bearer " ++ self.account.access_token),
                    ("Content-Type", "application/json")] := by
  refine ⟨?_, ?_, ?_, ?_, ?_, ?_, ?_, rfl⟩ <;>
    simp [Folder.rename_folder_request, Folder.get_subfolders_request,
      Folder.delete_folder_request, Folder.move_folder_request,
      Folder.copy_folder_request, Folder.create_child_folder_request,
      Folder.messages_request, hid, Json.asStr, Except.map]

/-- C8 witness: the header theorem at a concrete folder. -/
theorem requests_carry_exact_headers_witness :
    sampleFolder.id = Json.str "AAA" ∧
    ((sampleFolder.rename_folder_request "N").map Request.headers =
      Except.ok sampleFolder.headers ∧
    (sampleFolder.get_subfolders_request).map Request.headers =
      Except.ok sampleFolder.headers ∧
    (sampleFolder.delete_folder_request).map Request.headers =
      Except.ok sampleFolder.headers ∧
    (sampleFolder.move_folder_request "D").map Request.headers =
      Except.ok sampleFolder.headers ∧
    (sampleFolder.copy_folder_request "D").map Request.headers =
      Except.ok sampleFolder.headers ∧
    (sampleFolder.create_child_folder_request "N").map Request.headers =
      Except.ok sampleFolder.headers ∧
    (sampleFolder.messages_request).map Request.headers =
      Except.ok sampleFolder.headers ∧
    sampleFolder.headers =
      [("Authorization", "Bearer " ++ sampleFolder.account.access_token),
       ("Content-Type", "application/json")]) :=
  ⟨rfl, requests_carry_exact_headers sampleFolder "AAA" rfl "N" "D"⟩

/-- C9: each operation addresses the base MailFolders URL followed by the
folder's id and its fixed suffix, with its fixed HTTP verb: `rename_folder`
PATCHes and `delete_folder` DELETEs the bare id, `get_subfolders` GETs and
`create_child_folder` POSTs `/childfolders`, `move_folder` POSTs `/move`,
`copy_folder` POSTs `/copy`, and `messages` GETs `/messages`. -/
theorem requests_urls_and_methods (self : Folder) (i : String)
    (hid : self.id = Json.str i) (name dest : String) :
    (self.rename_folder_request name).map Request.method = Except.ok "PATCH" ∧
    (self.rename_folder_request name).map Request.url =
      Except.ok ("https://outlook.office.com/api/v2.0/me/MailFolders/" ++ i) ∧
    (self.delete_folder_request).map Request.method = Except.ok "DELETE" ∧
    (self.delete_folder_request).map Request.url =
      Except.ok ("https://outlook.office.com/api/v2.0/me/MailFolders/" ++ i) ∧
    (self.get_subfolders_request).map Request.method = Except.ok "GET" ∧
    (self.get_subfolders_request).map Request.url =
      Except.ok ("https://outlook.office.com/api/v2.0/me/MailFolders/" ++ i ++ "/childfolders") ∧
    (self.create_child_folder_request name).map Request.method = Except.ok "POST" ∧
    (self.create_child_folder_request name).map Request.url =
      Except.ok ("https://outlook.office.com/api/v2.0/me/MailFolders/" ++ i ++ "/childfolders") ∧
    (self.move_folder_request dest).map Request.method = Except.ok "POST" ∧
    (self.move_folder_request dest).map Request.url =
      Except.ok ("https://outlook.office.com/api/v2.0/me/MailFolders/" ++ i ++ "/move") ∧
    (self.copy_folder_request dest).map Request.method = Except.ok "POST" ∧
    (self.copy_folder_request dest).map Request.url =
      Except.ok ("https://outlook.office.com/api/v2.0/me/MailFolders/" ++ i ++ "/copy") ∧
    (self.messages_request).map Request.method = Except.ok "GET" ∧
    (self.messages_request).map Request.url =
      Except.ok ("https://outlook.office.com/api/v2.0/me/MailFolders/" ++ i ++ "/messages") := by
  refine ⟨?_, ?_, ?_, ?_, ?_, ?_, ?_, ?_, ?_, ?_, ?_, ?_, ?_, ?_⟩ <;>
    simp [Folder.rename_folder_request, Folder.delete_folder_request,
      Folder.get_subfolders_request, Folder.create_child_folder_request,
      Folder.move_folder_request, Folder.copy_folder_request,
      Folder.messages_request, hid, Json.asStr, Except.map]

/-- C9 witness: the URL and method theorem at a concrete folder. -/
theorem requests_urls_and_methods_witness :
    sampleFolder.id = Json.str "AAA" ∧
    ((sampleFolder.rename_folder_request "N").map Request.method = Except.ok "PATCH" ∧
    (sampleFolder.rename_folder_request "N").map Request.url =
      Except.ok ("https://outlook.office.com/api/v2.0/me/MailFolders/" ++ "AAA") ∧
    (sampleFolder.delete_folder_request).map Request.method = Except.ok "DELETE" ∧
    (sampleFolder.delete_folder_request).map Request.url =
      Except.ok ("https://outlook.office.com/api/v2.0/me/MailFolders/" ++ "AAA") ∧
    (sampleFolder.get_subfolders_request).map Request.method = Except.ok "GET" ∧
    (sampleFolder.get_subfolders_request).map Request.url =
      Except.ok ("https://outlook.office.com/api/v2.0/me/MailFolders/" ++ "AAA" ++ "/childfolders") ∧
    (sampleFolder.create_child_folder_request "N").map Request.method = Except.ok "POST" ∧
    (sampleFolder.create_child_folder_request "N").map Request.url =
      Except.ok ("https://outlook.office.com/api/v2.0/me/MailFolders/" ++ "AAA" ++ "/childfolders") ∧
    (sampleFolder.move_folder_request "D").map Request.method = Except.ok "POST" ∧
    (sampleFolder.move_folder_request "D").map Request.url =
      Except.ok ("https://outlook.office.com/api/v2.0/me/MailFolders/" ++ "AAA" ++ "/move") ∧
    (sampleFolder.copy_folder_request "D").map Request.method = Except.ok "POST" ∧
    (sampleFolder.copy_folder_request "D").map Request.url =
      Except.ok ("https://outlook.office.com/api/v2.0/me/MailFolders/" ++ "AAA" ++ "/copy") ∧
    (sampleFolder.messages_request).map Request.method = Except.ok "GET" ∧
    (sampleFolder.messages_request).map Request.url =
      Except.ok ("https://outlook.office.com/api/v2.0/me/MailFolders/" ++ "AAA" ++ "/messages")) :=
  ⟨rfl, requests_urls_and_methods sampleFolder "AAA" rfl "N" "D"⟩

/-- C10: folder decoding is partial in its required keys: an object missing
any of the six expected keys makes `Folder._json_to_folder` fail with a
`KeyError` (never a folder of default values), an object without `value`
makes `Folder._json_to_folders` fail with `KeyError` on `value`, and hence
every folder-decoding operation receiving such a body on a success status
returns a `KeyError` instead of a folder. -/
theorem decode_missing_key_fails (self : Folder) (fields fields2 : List (String × Json))
    (hmiss : lookupPairs fields "Id" = none ∨
      lookupPairs fields "DisplayName" = none ∨
      lookupPairs fields "ParentFolderId" = none ∨
      lookupPairs fields "ChildFolderCount" = none ∨
      lookupPairs fields "UnreadItemCount" = none ∨
      lookupPairs fields "TotalItemCount" = none)
    (hval : lookupPairs fields2 "value" = none) :
    (∃ k, Folder._json_to_folder self.account (Json.obj fields) =
      Except.error (PyError.keyError k)) ∧
    Folder._json_to_folders self.account (Json.obj fields2) =
      Except.error (PyError.keyError "value") ∧
    (∀ s : Nat, s ≤ 399 ∨ 452 ≤ s →
      (∃ k, self.rename_folder_response (Response.mk s (some (Json.obj fields))) =
        Except.error (PyError.keyError k)) ∧
      (∃ k, self.move_folder_response (Response.mk s (some (Json.obj fields))) =
        Except.error (PyError.keyError k)) ∧
      (∃ k, self.copy_folder_response (Response.mk s (some (Json.obj fields))) =
        Except.error (PyError.keyError k)) ∧
      (∃ k, self.create_child_folder_response (Response.mk s (some (Json.obj fields))) =
        Except.error (PyError.keyError k)) ∧
      self.get_subfolders_response (Response.mk s (some (Json.obj fields2))) =
        Except.error (PyError.keyError "value")) := by
  have hone : ∃ k, Folder._json_to_folder self.account (Json.obj fields) =
      Except.error (PyError.keyError k) := by
    cases hI : lookupPairs fields "Id" with
    | none => exact ⟨"Id", by simp [Folder._json_to_folder, getItem, hI]⟩
    | some vI =>
      cases hD : lookupPairs fields "DisplayName" with
      | none => exact ⟨"DisplayName", by simp [Folder._json_to_folder, getItem, hI, hD]⟩
      | some vD =>
        cases hP : lookupPairs fields "ParentFolderId" with
        | none =>
          exact ⟨"ParentFolderId", by simp [Folder._json_to_folder, getItem, hI, hD, hP]⟩
        | some vP =>
          cases hC : lookupPairs fields "ChildFolderCount" with
          | none =>
            exact ⟨"ChildFolderCount",
              by simp [Folder._json_to_folder, getItem, hI, hD, hP, hC]⟩
          | some vC =>
            cases hU : lookupPairs fields "UnreadItemCount" with
            | none =>
              exact ⟨"UnreadItemCount",
                by simp [Folder._json_to_folder, getItem, hI, hD, hP, hC, hU]⟩
            | some vU =>
              cases hT : lookupPairs fields "TotalItemCount" with
              | none =>
                exact ⟨"TotalItemCount",
                  by simp [Folder._json_to_folder, getItem, hI, hD, hP, hC, hU, hT]⟩
              | some vT =>
                exfalso
                rcases hmiss with h | h | h | h | h | h <;> simp_all
  have hlist : Folder._json_to_folders self.account (Json.obj fields2) =
      Except.error (PyError.keyError "value") := by
    simp [Folder._json_to_folders, getItem, hval]
  obtain ⟨k, hk⟩ := hone
  refine ⟨⟨k, hk⟩, hlist, ?_⟩
  intro s hs
  have hnband : ¬(399 < s ∧ s < 452) := by omega
  refine ⟨⟨k, ?_⟩, ⟨k, ?_⟩, ⟨k, ?_⟩, ⟨k, ?_⟩, ?_⟩ <;>
    simp [Folder.rename_folder_response, Folder.move_folder_response,
      Folder.copy_folder_response, Folder.create_child_folder_response,
      Folder.get_subfolders_response, Response.json, hnband, hk, hlist]

/-- C10 witness: the partiality theorem applied to the empty object, which
misses every key, on the success status 200. -/
theorem decode_missing_key_fails_witness :
    (lookupPairs [] "Id" = none ∨
      lookupPairs [] "DisplayName" = none ∨
      lookupPairs [] "ParentFolderId" = none ∨
      lookupPairs [] "ChildFolderCount" = none ∨
      lookupPairs [] "UnreadItemCount" = none ∨
      lookupPairs [] "TotalItemCount" = none) ∧
    lookupPairs [] "value" = none ∧
    ((200 : Nat) ≤ 399 ∨ (452 : Nat) ≤ 200) ∧
    (∃ k, Folder._json_to_folder sampleFolder.account (Json.obj []) =
      Except.error (PyError.keyError k)) ∧
    Folder._json_to_folders sampleFolder.account (Json.obj []) =
      Except.error (PyError.keyError "value") ∧
    (∃ k, sampleFolder.rename_folder_response (Response.mk 200 (some (Json.obj []))) =
      Except.error (PyError.keyError k)) ∧
    (∃ k, sampleFolder.move_folder_response (Response.mk 200 (some (Json.obj []))) =
      Except.error (PyError.keyError k)) ∧
    (∃ k, sampleFolder.copy_folder_response (Response.mk 200 (some (Json.obj []))) =
      Except.error (PyError.keyError k)) ∧
    (∃ k, sampleFolder.create_child_folder_response (Response.mk 200 (some (Json.obj []))) =
      Except.error (PyError.keyError k)) ∧
    sampleFolder.get_subfolders_response (Response.mk 200 (some (Json.obj []))) =
      Except.error (PyError.keyError "value") := by
  have h := decode_missing_key_fails sampleFolder [] [] (Or.inl rfl) rfl
  obtain ⟨h1, h2, h3⟩ := h
  obtain ⟨h4, h5, h6, h7, h8⟩ := h3 200 (Or.inl (by decide))
  exact ⟨Or.inl rfl, rfl, Or.inl (by decide), h1, h2, h4, h5, h6, h7, h8⟩
